import Mathlib

/-!
Verification of the DeckCheck actor core (deck-reviewer repository).

This file gives a shallow embedding of the pieces of the repository that the
claims concern:

* the Extractor job (`tools/src/actors/extractor/index.ts`): page splitting
  (`extractPDFText`), page-document creation (`createPageDocuments`) and the
  main job body (`extractPDFPages`);
* the Critic job (`tools/src/actors/critic/index.ts`): the work finder
  (`findPageToCritique`) and the completion check (`checkIfDeckComplete`);
* the session logger (`tools/src/utils/logger.ts`);
* the overlap guard of the scheduler (`tools/src/actors/scheduler/index.ts`);
* the cost ledger (`tools/src/utils/costTracker.ts`).

Modelling conventions:
* Firestore is a record of association lists (document id, document data);
  queries with `orderBy` are modelled by a stable insertion sort on the order
  key.  Firestore's `orderBy` excludes documents that are missing the order
  field, which the embeddings reproduce with an `isSome` filter.
* Writes to Firestore (update / batch commit) are modelled as always
  succeeding; the external boundaries that actually fail in practice
  (the deck query, blob download, pdf parsing, the automation-log append)
  are modelled as fallible via `Except` / explicit success flags.
* JavaScript numbers used for counting (lengths, page numbers, timestamps)
  are modelled as `Nat`; USD amounts and token counts in the cost ledger are
  modelled as `ℚ` (the claims under test only involve exact arithmetic that
  IEEE doubles and `ℚ` agree on structurally).
* Strings are Lean `String`s; character indexing uses `String.data`
  (`List Char`), which matches JavaScript's UTF-16 `.length`/`substring`
  on the ASCII texts of the claims.
-/

namespace DeckReviewer

/-! ### Text utilities (extractor page splitting and word counts) -/

/-- Whitespace as matched by the JavaScript `\s` class and `String.trim`,
restricted to the ASCII whitespace characters (space, tab, newline,
carriage return, vertical tab, form feed). -/
def isJsSpace (c : Char) : Bool :=
  c == ' ' || c == '\t' || c == '\n' || c == '\r' ||
  c == Char.ofNat 11 || c == Char.ofNat 12

/-- JavaScript `String.prototype.trim`: drop whitespace from both ends. -/
def trimText (l : List Char) : List Char :=
  ((l.dropWhile isJsSpace).reverse.dropWhile isJsSpace).reverse

/-- JavaScript `fullText.substring(start, stop)` at the extractor's call
sites: characters from index `start` (inclusive) to `stop` (exclusive).
JavaScript clamps both indices to `[0, length]` and swaps them when
`start > stop`; at the extractor's call sites `stop ≤ length`, so the
swapped-and-clamped result is always the empty string, which
`take (stop - start) (drop start)` also yields with `Nat` subtraction. -/
def jsSubstring (l : List Char) (start stop : Nat) : List Char :=
  (l.drop start).take (stop - start)

/-- `text.split(/\s+/).filter(w => w.length > 0).length` from
`createPageDocuments`: the number of maximal runs of non-whitespace
characters (splitting on whitespace runs and discarding empty tokens). -/
def countWords (l : List Char) : Nat :=
  (l.foldl
    (fun (acc : Nat × Bool) c =>
      if isJsSpace c then (acc.1, false)
      else if acc.2 then acc else (acc.1 + 1, true))
    (0, false)).1

/-- One page slice of `extractPDFText` (0-based index `i`):
`fullText.substring(i*avg, min((i+1)*avg, length)).trim()`, with the
placeholder text when the trimmed slice is empty.  `avgCharsPerPage` is
`Math.ceil(length / pageCount)`, i.e. `(length + pageCount - 1) / pageCount`
in exact natural arithmetic. -/
def pageSlice (fullText : String) (pageCount : Nat) (i : Nat) : String :=
  let len := fullText.data.length
  let avgCharsPerPage := (len + pageCount - 1) / pageCount
  let start := i * avgCharsPerPage
  let stop := min ((i + 1) * avgCharsPerPage) len
  let pageText := trimText (jsSubstring fullText.data start stop)
  if pageText.isEmpty then
    "[Page " ++ toString (i + 1) ++ " - No text extracted]"
  else ⟨pageText⟩

/-- The pure splitting loop of `extractPDFText`
(`tools/src/actors/extractor/index.ts`, lines 62-77): after `pdf-parse`
returns the full text and the reported page count, the text is cut into
`pageCount` even character slices, each trimmed, with empty slices replaced
by a placeholder. -/
def extractPDFText (fullText : String) (pageCount : Nat) : List String :=
  (List.range pageCount).map (pageSlice fullText pageCount)

/-! ### Cost ledger (`tools/src/utils/costTracker.ts`) -/

/-- Per-model pricing in USD per 1M tokens. -/
structure ModelPricing where
  input : ℚ
  output : ℚ
deriving DecidableEq

/-- The static `MODEL_PRICING` table, in source order. -/
def MODEL_PRICING : List (String × ModelPricing) :=
  [ ("gpt-4o", ⟨2.50, 10.00⟩),
    ("gpt-4o-2024-11-20", ⟨2.50, 10.00⟩),
    ("gpt-4o-mini", ⟨0.150, 0.600⟩),
    ("gpt-4o-mini-2024-07-18", ⟨0.150, 0.600⟩),
    ("gpt-4-turbo", ⟨10.00, 30.00⟩),
    ("gpt-4-turbo-2024-04-09", ⟨10.00, 30.00⟩),
    ("gpt-3.5-turbo", ⟨0.50, 1.50⟩),
    ("gpt-3.5-turbo-0125", ⟨0.50, 1.50⟩) ]

/-- `MODEL_PRICING[model]`: record lookup by key. -/
def lookupPricing (model : String) : Option ModelPricing :=
  (MODEL_PRICING.find? (fun e => e.1 == model)).map (fun e => e.2)

/-- `calculateCost`, with the self-recursion made explicit through a fuel
parameter: `none` means the recursion budget was exhausted.  The source
function recurses on `'gpt-4o-mini'` exactly when `model` is absent from
the pricing table. -/
def calculateCostFuel : Nat → String → ℚ → ℚ → Option ℚ
  | 0, _, _, _ => none
  | fuel + 1, model, promptTokens, completionTokens =>
    match lookupPricing model with
    | some pricing =>
        some ((promptTokens / 1000000) * pricing.input
          + (completionTokens / 1000000) * pricing.output)
    | none => calculateCostFuel fuel "gpt-4o-mini" promptTokens completionTokens

/-- `calculateCost(model, promptTokens, completionTokens)`.  Fuel 2 always
suffices (proved below): the recursion is taken at most once. -/
def calculateCost (model : String) (promptTokens completionTokens : ℚ) : ℚ :=
  (calculateCostFuel 2 model promptTokens completionTokens).getD 0

/-! ### Firestore data model (`tools/src/types/types.ts`,
`tools/src/utils/firebase/firebaseConstants.ts`) -/

/-- `DeckStatus` constants. -/
inductive DeckStatus
  | uploaded | extracting | analyzing | complete | error
deriving DecidableEq, BEq

/-- `PageStatus` constants. -/
inductive PageStatus
  | pending | extracted | analyzed
deriving DecidableEq, BEq

/-- `InsightType` constants. -/
inductive InsightType
  | problem | solution | market | traction | team | design | monetization | narrative
deriving DecidableEq, BEq

/-- `Deck` document.  Timestamps are `Nat`; `fileType` and `uploadedBy` are
omitted (no actor reads them). -/
structure Deck where
  fileName : String
  fileSize : Nat
  storagePath : String
  uploadedAt : Nat
  processedAt : Option Nat
  status : DeckStatus
  pageCount : Nat
  errorMessage : Option String
deriving DecidableEq, BEq

/-- `Page` subcollection document. -/
structure Page where
  pageNumber : Nat
  text : String
  extractedAt : Nat
  wordCount : Nat
  status : PageStatus
deriving DecidableEq, BEq

/-- `Insight` subcollection document. -/
structure Insight where
  type : InsightType
  pageNumber : Nat
  rating : Nat
  feedback : String
  reasoning : String
  actorName : String
  generatedAt : Nat
deriving DecidableEq, BEq

/-- The Firestore collections the actors touch.  `decks` maps document id to
deck data; `pages` and `insights` are the subcollections, tagged with their
parent deck id (the subcollection document ids themselves are never read by
the actors, so they are not modelled). -/
structure Firestore where
  decks : List (String × Deck)
  pages : List (String × Page)
  insights : List (String × Insight)
deriving DecidableEq, BEq

/-- Stable insertion of one element into a list sorted by a `Nat` key. -/
def insertByKey {α : Type} (key : α → Nat) (a : α) : List α → List α
  | [] => [a]
  | b :: l => if key a < key b then a :: b :: l else b :: insertByKey key a l

/-- Stable sort by a `Nat` key: models Firestore `orderBy(field, 'asc')`
(equal keys keep their relative order; the claims never depend on how
Firestore breaks ties). -/
def sortByKey {α : Type} (key : α → Nat) : List α → List α
  | [] => []
  | a :: l => insertByKey key a (sortByKey key l)

/-- `db.collection(DECKS).doc(id).update(...)` with patch `f`. -/
def updateDeck (s : Firestore) (id : String) (f : Deck → Deck) : Firestore :=
  { s with decks := s.decks.map (fun d => if d.1 == id then (d.1, f d.2) else d) }

/-! ### Session logger (`tools/src/utils/logger.ts`) -/

/-- `AutomationLog.status` values. -/
inductive SessionStatus
  | completed | failed | noItemsFound
deriving DecidableEq, BEq

/-- A buffered log line (the optional structured `data` payload is elided:
no claim inspects it). -/
structure LogEntry where
  timestamp : Nat
  message : String
deriving DecidableEq, BEq

/-- The in-memory session record (`Partial<AutomationLog>`).  The free-form
`metadata` map is elided: no claim inspects it. -/
structure SessionRec where
  action : String
  deckId : Option String
  status : SessionStatus
  startedAt : Nat
  completedAt : Option Nat
  logs : List LogEntry
  errors : List String
deriving DecidableEq, BEq

/-- The logger's `deckContext` field. -/
structure DeckContext where
  deckId : Option String
  fileName : Option String
deriving DecidableEq, BEq

/-- The mutable state of the `LoggerClass` singleton:
`session`, `logs`, `deckContext`. -/
structure LoggerState where
  session : Option SessionRec
  logs : List LogEntry
  deckContext : DeckContext
deriving DecidableEq, BEq

/-- The logger as constructed (`new LoggerClass()`). -/
def LoggerState.init : LoggerState := ⟨none, [], ⟨none, none⟩⟩

/-- `Logger.startSession({action, deckId?})`. -/
def startSession (_st : LoggerState) (action : String) (deckId : Option String)
    (now : Nat) : LoggerState :=
  { session := some
      { action := action, deckId := deckId, status := .completed,
        startedAt := now, completedAt := none, logs := [], errors := [] },
    logs := [],
    deckContext :=
      match deckId with
      | some id => ⟨some id, none⟩
      | none => ⟨none, none⟩ }

/-- `Logger.setDeckContext({deckId, fileName?})`. -/
def setDeckContext (st : LoggerState) (deckId : String)
    (fileName : Option String) : LoggerState :=
  { st with
    deckContext := ⟨some deckId, fileName⟩,
    session := st.session.map (fun s => { s with deckId := some deckId }) }

/-- `Logger.add(message, data?)`: appends to the buffer unconditionally
(there is no active-session check in the source). -/
def addLog (st : LoggerState) (now : Nat) (message : String) : LoggerState :=
  { st with logs := st.logs ++ [⟨now, message⟩] }

/-- A JavaScript value passed as the second argument of `Logger.error`:
either an `Error` instance (normalized via `.message`) or any other value
(normalized via `String(...)`). -/
inductive JsError
  | errObject (message : String)
  | rawValue (asString : String)
deriving DecidableEq, BEq

/-- `error instanceof Error ? error.message : String(error)`. -/
def normalizeError : JsError → String
  | .errObject m => m
  | .rawValue s => s

/-- `Logger.error(message, error?)`.  Without an active session it only
writes to the console; with one it appends to the error list and forces the
session status to failed. -/
def logError (st : LoggerState) (message : String) (e : JsError) : LoggerState :=
  match st.session with
  | none => st
  | some s =>
      let s1 : SessionRec :=
        { s with
          errors := s.errors ++ [message ++ ": " ++ normalizeError e],
          status := .failed }
      { st with session := some s1 }

/-- Optional argument object of `Logger.endSession` (the optional
`metadata` patch is elided: no claim inspects it). -/
structure EndParams where
  status : Option SessionStatus
deriving DecidableEq, BEq

/-- Result of `Logger.endSession`: the logger state afterwards, the record
handed to the single `automationLogs` append attempt (`none` when no
attempt was made), and the record durably stored (`none` when the append
threw; the throw is caught inside `endSession`). -/
structure EndResult where
  state : LoggerState
  attempted : Option SessionRec
  persisted : Option SessionRec
deriving DecidableEq, BEq

/-- `Logger.endSession(params?)`.  `writeOk` says whether the one storage
append succeeds; the source swallows an append failure and clears the
in-memory state either way.  With no active session it warns and returns
without writing or clearing. -/
def endSession (st : LoggerState) (params : Option EndParams) (now : Nat)
    (writeOk : Bool) : EndResult :=
  match st.session with
  | none => ⟨st, none, none⟩
  | some s =>
      let s1 :=
        match params.bind (fun p => p.status) with
        | some st1 => { s with status := st1 }
        | none => s
      let s2 := { s1 with completedAt := some now, logs := st.logs }
      ⟨⟨none, [], ⟨none, none⟩⟩, some s2, if writeOk then some s2 else none⟩

/-- `Logger.getDeckContext()`. -/
def getDeckContext (st : LoggerState) : DeckContext := st.deckContext

/-! ### Extractor job (`tools/src/actors/extractor/index.ts`) -/

/-- What `pdf-parse` returns: the full text and the reported page count. -/
structure ParsedPDF where
  text : String
  numpages : Nat
deriving DecidableEq, BEq

/-- The external boundaries of one extractor run.  `queryError` makes the
initial deck query throw (before any deck is found); `download` maps a
storage path to a buffer handle or a thrown error message; `pdfParse` maps
a buffer handle to the parsed PDF or a thrown error message.  Firestore
writes are modelled as always succeeding. -/
structure ExtractorEnv where
  queryError : Option String
  download : String → Except String Nat
  pdfParse : Nat → Except String ParsedPDF

/-- `findDeckToExtract`: the oldest deck with status `uploaded`
(`where status == uploaded`, `orderBy uploadedAt asc`, `limit 1`). -/
def findDeckToExtract (s : Firestore) : Option (String × Deck) :=
  (sortByKey (fun d => d.2.uploadedAt)
    (s.decks.filter (fun d => d.2.status == DeckStatus.uploaded))).head?

/-- One `Page` document as built inside `createPageDocuments`
(0-based index `i` into the extracted page-text list). -/
def mkPage (now : Nat) (i : Nat) (text : String) : Page :=
  { pageNumber := i + 1,
    text := text,
    extractedAt := now,
    wordCount := countWords text.data,
    status := .extracted }

/-- `createPageDocuments(deckId, pages)`: one batched write appending all
page documents of the deck at once. -/
def createPageDocuments (s : Firestore) (deckId : String)
    (pagesTexts : List String) (now : Nat) : Firestore :=
  { s with
    pages := s.pages ++ pagesTexts.enum.map (fun e => (deckId, mkPage now e.1 e.2)) }

/-- Outcome of one extractor run, mirroring the session's terminal status. -/
inductive ExtractOutcome
  | noWork
  | completed (pageCount : Nat)
  | failed (message : String)
deriving DecidableEq, BEq

/-- The `catch` block of `extractPDFPages`: log the error, end the session
as failed, then read `Logger.getDeckContext()` and — only if it still holds
a deck id — write `status = error` and the error message onto that deck.
Note the source calls `Logger.endSession` (which clears the deck context)
before `Logger.getDeckContext`, so the guarded deck update is dead code. -/
def extractCatch (s : Firestore) (lg : LoggerState) (msg : String) (now : Nat) :
    Firestore × LoggerState × ExtractOutcome :=
  let lg1 := logError lg "PDF extraction failed" (.errObject msg)
  let lg2 := (endSession lg1 (some ⟨some .failed⟩) now true).state
  let ctx := getDeckContext lg2
  match ctx.deckId with
  | some deckId =>
      (updateDeck s deckId
         (fun d => { d with status := .error, errorMessage := some msg }),
       lg2, .failed msg)
  | none => (s, lg2, .failed msg)

/-- `extractPDFPages()`: one run of the extractor job, threading the
Firestore state and the logger singleton.  `now` stands for all
`Timestamp.now()` calls of the run. -/
def extractPDFPages (env : ExtractorEnv) (s : Firestore) (lg : LoggerState)
    (now : Nat) : Firestore × LoggerState × ExtractOutcome :=
  let lg0 := startSession lg "extract_pdf" none now
  match env.queryError with
  | some msg => extractCatch s lg0 msg now
  | none =>
    match findDeckToExtract s with
    | none =>
        (s, (endSession lg0 (some ⟨some .noItemsFound⟩) now true).state, .noWork)
    | some (deckId, deck) =>
      let lg1 := setDeckContext lg0 deckId (some deck.fileName)
      let s1 := updateDeck s deckId (fun d => { d with status := .extracting })
      let lg2 := addLog lg1 now "Downloading PDF from storage"
      match env.download deck.storagePath with
      | .error msg => extractCatch s1 lg2 msg now
      | .ok buf =>
        let lg3 := addLog lg2 now "Extracting text from PDF"
        match env.pdfParse buf with
        | .error msg => extractCatch s1 lg3 msg now
        | .ok pdf =>
          let pages := extractPDFText pdf.text pdf.numpages
          let lg4 := addLog lg3 now "Creating page documents"
          let s2 := createPageDocuments s1 deckId pages now
          let s3 := updateDeck s2 deckId
            (fun d => { d with
                        status := .analyzing,
                        pageCount := pages.length,
                        processedAt := some now })
          let lg5 := addLog lg4 now "PDF extraction complete"
          (s3, (endSession lg5 (some ⟨some .completed⟩) now true).state,
           .completed pages.length)

/-! ### Critic job (`tools/src/actors/critic/index.ts`) -/

/-- The insight-existence query inside `findPageToCritique`: does the deck
already have an insight with this page number and type `problem`
(`where pageNumber == n`, `where type == problem`, `limit 1`, non-empty)? -/
def hasProblemInsight (s : Firestore) (deckId : String) (n : Nat) : Bool :=
  s.insights.any (fun q =>
    q.1 == deckId && q.2.pageNumber == n && q.2.type == InsightType.problem)

/-- The pages query inside `findPageToCritique`: all pages of the deck,
`orderBy pageNumber asc` (pages missing the field would be excluded by
Firestore; every page written by the extractor has one). -/
def deckPagesSorted (s : Firestore) (deckId : String) : List Page :=
  sortByKey (fun p => p.pageNumber)
    ((s.pages.filter (fun p => p.1 == deckId)).map (fun p => p.2))

/-- The decks query of `findPageToCritique`: `where status == analyzing`,
`orderBy processedAt asc`, `limit 10`.  Firestore's `orderBy` drops
documents missing `processedAt`, hence the `isSome` filter. -/
def analyzingDecksQuery (s : Firestore) : List (String × Deck) :=
  (sortByKey (fun d => d.2.processedAt.getD 0)
    (s.decks.filter (fun d =>
      d.2.status == DeckStatus.analyzing && d.2.processedAt.isSome))).take 10

/-- `findPageToCritique()`: scan the (at most 10) candidate decks in query
order and, inside each, the pages in ascending page-number order; return
the first page with no `problem` insight, or nothing.  (The source also
returns the page's document id and the deck data; the claims only concern
which page of which deck is chosen.) -/
def findPageToCritique (s : Firestore) : Option (String × Page) :=
  (analyzingDecksQuery s).findSome? (fun d =>
    ((deckPagesSorted s d.1).find?
        (fun p => !(hasProblemInsight s d.1 p.pageNumber))).map
      (fun p => (d.1, p)))

/-- Modelled from the spec's scan-order description (for comparison with
`findPageToCritique`): the flattened deck-then-page scan order, decks in
query order and pages ascending by page number. -/
def critiqueScanOrder (s : Firestore) : List (String × Page) :=
  (analyzingDecksQuery s).flatMap (fun d =>
    (deckPagesSorted s d.1).map (fun p => (d.1, p)))

/-- `checkIfDeckComplete(deckId, pageCount)`: count all insight documents
under the deck (any type) and set the deck status to `complete` when the
count reaches `pageCount * 1`. -/
def checkIfDeckComplete (s : Firestore) (deckId : String) (pageCount : Nat) :
    Firestore :=
  let insightCount := (s.insights.filter (fun q => q.1 == deckId)).length
  let expectedInsights := pageCount * 1
  if expectedInsights ≤ insightCount then
    updateDeck s deckId (fun d => { d with status := .complete })
  else s

/-! ### Overlap guard (`tools/src/actors/scheduler/index.ts`, `preventOverlap`) -/

namespace Guard

/-- State of one named job's guard: the `runningJobs` busy flag for that
name (distinct job names use disjoint map keys, so one flag per name is
exact), plus the number of invocations of the underlying `jobFn` that have
started but whose promise has not yet settled. -/
structure State where
  busy : Bool
  inFlight : Nat
deriving DecidableEq, BEq

/-- Initial state: `runningJobs.get(name)` is `undefined` (falsy) and no
body is running. -/
def init : State := ⟨false, 0⟩

/-- Events of the wrapped job, in the single-threaded event-loop order:
`call` is one timer tick invoking the wrapper; `settle` is the pending
`jobFn()` promise settling (normally or by throw), immediately followed by
the `finally` block clearing the flag (promise continuations run before the
next timer tick, so the two are one atomic step). -/
inductive Event
  | call
  | settle (threw : Bool)
deriving DecidableEq, BEq

/-- One step of the guard.  The returned `Bool` reports whether a `call`
event invoked the underlying `jobFn`. -/
def step : State → Event → State × Bool
  | s, .call => if s.busy then (s, false) else (⟨true, s.inFlight + 1⟩, true)
  | s, .settle _ => if s.inFlight == 0 then (s, false) else (⟨false, s.inFlight - 1⟩, false)

/-- Run a sequence of events from a state. -/
def run (s : State) : List Event → State
  | [] => s
  | e :: es => run (step s e).1 es

/-- The guard invariant: at most one body in flight, and the busy flag is
set exactly while one is. -/
def Inv (s : State) : Prop := s.inFlight ≤ 1 ∧ (s.busy = true ↔ s.inFlight = 1)

end Guard

/-! ### Concrete example states used by the closed theorems and witnesses -/

/-- An uploaded deck, as produced by the upload flow. -/
def deckUploadedEx : Deck :=
  { fileName := "f.pdf", fileSize := 10, storagePath := "p", uploadedAt := 0,
    processedAt := none, status := .uploaded, pageCount := 0, errorMessage := none }

/-- A store holding exactly one uploaded deck. -/
def storeOneDeck : Firestore := ⟨[("d1", deckUploadedEx)], [], []⟩

/-- An environment whose blob download throws with message "boom". -/
def envDownloadFails : ExtractorEnv :=
  ⟨none, fun _ => .error "boom", fun _ => .error "unused"⟩

/-- An environment whose PDF parses to the two-page scenario text of the
spec: full text `"PageOneText" + "PageTwoText"`, reported page count 2. -/
def envTwoPagePDF : ExtractorEnv :=
  ⟨none, fun _ => .ok 0, fun _ => .ok ⟨"PageOneTextPageTwoText", 2⟩⟩

/-- A deck in `analyzing` status with `pageCount = 3`. -/
def deckAnalyzingEx : Deck :=
  { fileName := "f.pdf", fileSize := 10, storagePath := "p", uploadedAt := 0,
    processedAt := some 1, status := .analyzing, pageCount := 3,
    errorMessage := none }

/-- A `problem`-type insight for page `n`. -/
def problemInsight (n : Nat) : Insight :=
  { type := .problem, pageNumber := n, rating := 7, feedback := "ok",
    reasoning := "fine", actorName := "Critic", generatedAt := 2 }

/-- A store with one `analyzing` deck (`pageCount = 3`) and exactly three
`problem`-type insights. -/
def storeThreeInsights : Firestore :=
  ⟨[("d1", deckAnalyzingEx)], [],
   [("d1", problemInsight 1), ("d1", problemInsight 2), ("d1", problemInsight 3)]⟩

/-! ## Helper lemmas -/

/-- The fallback model is a key of the static pricing table. -/
theorem lookupPricing_mini : lookupPricing "gpt-4o-mini" = some ⟨0.150, 0.600⟩ := rfl

/-- `find?` through `map`. -/
theorem find?_map_comm {α β : Type} (g : α → β) (p : β → Bool) (l : List α) :
    (l.map g).find? p = (l.find? (fun a => p (g a))).map g := by
  induction l with
  | nil => rfl
  | cons a l ih => cases hpa : p (g a) <;> simp [List.find?_cons, hpa, ih]

/-- Scanning decks with `findSome?` of an inner `find?` over each deck's
pages equals a single `find?` over the flattened deck-then-page scan
order. -/
theorem findSome?_eq_find?_flatMap {α β : Type} (ds : List α) (key : α → String)
    (f : α → List β) (pred : String → β → Bool) :
    ds.findSome? (fun d => ((f d).find? (pred (key d))).map (fun p => (key d, p)))
      = (ds.flatMap (fun d => (f d).map (fun p => (key d, p)))).find?
          (fun q => pred q.1 q.2) := by
  induction ds with
  | nil => rfl
  | cons d ds ih =>
    have aux : ∀ (l : List β) (rest : List (String × β)),
        ((l.map (fun p => (key d, p))) ++ rest).find? (fun q => pred q.1 q.2)
          = match (l.find? (pred (key d))).map (fun p => (key d, p)) with
            | some x => some x
            | none => rest.find? (fun q => pred q.1 q.2) := by
      intro l rest
      induction l with
      | nil => rfl
      | cons p l ihl =>
        cases hp : pred (key d) p <;>
          simp [List.find?_cons, hp, ihl]
    rw [List.flatMap_cons, aux, ← ih]
    cases hfd : ((f d).find? (pred (key d))).map (fun p => (key d, p)) with
    | some x => simp [List.findSome?, hfd]
    | none => simp [List.findSome?, hfd]

/-- The guard invariant holds initially. -/
theorem Guard.inv_init : Guard.Inv Guard.init := by
  constructor <;> simp [Guard.init]

/-- The guard invariant is preserved by every event. -/
theorem Guard.inv_step (s : Guard.State) (e : Guard.Event) (h : Guard.Inv s) :
    Guard.Inv (Guard.step s e).1 := by
  obtain ⟨h1, h2⟩ := h
  cases e with
  | call =>
    cases hb : s.busy with
    | true =>
      have hstep : (Guard.step s .call).1 = s := by simp [Guard.step, hb]
      rw [hstep]; exact ⟨h1, h2⟩
    | false =>
      have h0 : s.inFlight = 0 := by
        rcases Nat.lt_or_ge s.inFlight 1 with h' | h'
        · omega
        · exact absurd (h2.mpr (by omega)) (by simp [hb])
      simp [Guard.step, hb, Guard.Inv, h0]
  | settle t =>
    cases h0 : s.inFlight == 0 with
    | true =>
      have hstep : (Guard.step s (.settle t)).1 = s := by simp [Guard.step, h0]
      rw [hstep]; exact ⟨h1, h2⟩
    | false =>
      have hne : s.inFlight ≠ 0 := by simpa using h0
      have h1' : s.inFlight = 1 := by omega
      simp [Guard.step, h0, Guard.Inv, h1']

/-- The guard invariant holds in every reachable state. -/
theorem Guard.inv_run (es : List Guard.Event) : Guard.Inv (Guard.run Guard.init es) := by
  suffices h : ∀ s, Guard.Inv s → Guard.Inv (Guard.run s es) from h _ Guard.inv_init
  induction es with
  | nil => intro s hs; exact hs
  | cons e es ih => intro s hs; exact ih _ (Guard.inv_step s e hs)

/-! ## Claims -/

/-- C9: `calculateCost` never errors on an unknown model: for every model
absent from the pricing table it equals the cost of the fallback model
`gpt-4o-mini` on the same token counts; for every model in the table it is
`(promptTokens / 1M) * inputPrice + (completionTokens / 1M) * outputPrice`;
in particular the fallback law holds at `("unknown-model-xyz", 1000, 1000)`. -/
theorem calculateCost_spec :
    (∀ (model : String) (p c : ℚ), lookupPricing model = none →
        calculateCost model p c = calculateCost "gpt-4o-mini" p c)
    ∧ (∀ (model : String) (pricing : ModelPricing) (p c : ℚ),
        lookupPricing model = some pricing →
        calculateCost model p c
          = (p / 1000000) * pricing.input + (c / 1000000) * pricing.output)
    ∧ calculateCost "unknown-model-xyz" 1000 1000
        = calculateCost "gpt-4o-mini" 1000 1000 := by
  have h1 : ∀ (model : String) (p c : ℚ), lookupPricing model = none →
      calculateCost model p c = calculateCost "gpt-4o-mini" p c := by
    intro model p c h
    simp [calculateCost, calculateCostFuel, h, lookupPricing_mini]
  refine ⟨h1, ?_, h1 "unknown-model-xyz" 1000 1000 rfl⟩
  intro model pricing p c h
  simp [calculateCost, calculateCostFuel, h]

/-- C9 witness: the fallback law applied at a concrete unknown model. -/
theorem calculateCost_spec_witness :
    calculateCost "totally-unknown" 5 7 = calculateCost "gpt-4o-mini" 5 7 :=
  calculateCost_spec.1 "totally-unknown" 5 7 rfl

/-- C10: `calculateCost` is total: the self-recursive fallback needs
recursion depth at most one, because the recursive call is taken only when
the model is absent from the table and its argument `gpt-4o-mini` is a key
of the table.  Formally: fuel 2 already yields a defined result for every
model, and adding fuel beyond 2 never changes the result. -/
theorem calculateCost_total (model : String) (p c : ℚ) (fuel : Nat)
    (h : 2 ≤ fuel) :
    calculateCostFuel fuel model p c = calculateCostFuel 2 model p c
    ∧ (calculateCostFuel 2 model p c).isSome = true
    ∧ (lookupPricing "gpt-4o-mini").isSome = true := by
  obtain ⟨k, rfl⟩ : ∃ k, fuel = k + 2 := ⟨fuel - 2, by omega⟩
  cases hm : lookupPricing model with
  | some pricing => simp [calculateCostFuel, hm, lookupPricing_mini]
  | none => simp [calculateCostFuel, hm, lookupPricing_mini]

/-- C10 witness: totality applied at a concrete unknown model with fuel 5. -/
theorem calculateCost_total_witness :
    calculateCostFuel 5 "m" 1 2 = calculateCostFuel 2 "m" 1 2
    ∧ (calculateCostFuel 2 "m" 1 2).isSome = true
    ∧ (lookupPricing "gpt-4o-mini").isSome = true :=
  calculateCost_total "m" 1 2 5 (by decide)

/-- C2: the overlap guard keeps at most one execution of a named job's body
in flight: in every reachable state at most one body is pending and the
busy flag tracks exactly that; a call made while a body is pending (busy)
does not invoke the underlying job function and changes nothing; after the
pending promise settles — normally or by throw — the busy flag is cleared,
so the next call does invoke the underlying function. -/
theorem preventOverlap_guard (es : List Guard.Event) (t : Bool) (s : Guard.State)
    (hs : s = Guard.run Guard.init es) :
    s.inFlight ≤ 1
    ∧ (s.busy = true ↔ s.inFlight = 1)
    ∧ (s.busy = true → (Guard.step s .call).2 = false ∧ (Guard.step s .call).1 = s)
    ∧ (Guard.step s (.settle t)).1.busy = false
    ∧ (Guard.step (Guard.step s (.settle t)).1 .call).2 = true := by
  subst hs
  obtain ⟨h1, h2⟩ := Guard.inv_run es
  refine ⟨h1, h2, ?_, ?_, ?_⟩
  · intro hb
    constructor <;> simp [Guard.step, hb]
  · cases h0 : (Guard.run Guard.init es).inFlight == 0 with
    | true =>
      have hz : (Guard.run Guard.init es).inFlight = 0 := by simpa using h0
      have : ¬ (Guard.run Guard.init es).busy = true := fun hb => by
        have := h2.mp hb; omega
      simp [Guard.step, h0, Bool.not_eq_true] at this ⊢
      exact this
    | false => simp [Guard.step, h0]
  · cases h0 : (Guard.run Guard.init es).inFlight == 0 with
    | true =>
      have hz : (Guard.run Guard.init es).inFlight = 0 := by simpa using h0
      have hb : (Guard.run Guard.init es).busy = false := by
        cases hbb : (Guard.run Guard.init es).busy with
        | false => rfl
        | true => have := h2.mp hbb; omega
      simp [Guard.step, h0, hb]
    | false => simp [Guard.step, h0]

/-- C2 witness: after one call the body is in flight; a second call during
it does not invoke the body; after settling, a call invokes it again. -/
theorem preventOverlap_guard_witness :
    (Guard.State.mk true 1).inFlight ≤ 1
    ∧ ((Guard.State.mk true 1).busy = true ↔ (Guard.State.mk true 1).inFlight = 1)
    ∧ ((Guard.State.mk true 1).busy = true →
        (Guard.step (Guard.State.mk true 1) .call).2 = false
        ∧ (Guard.step (Guard.State.mk true 1) .call).1 = Guard.State.mk true 1)
    ∧ (Guard.step (Guard.State.mk true 1) (.settle false)).1.busy = false
    ∧ (Guard.step (Guard.step (Guard.State.mk true 1) (.settle false)).1 .call).2 = true :=
  preventOverlap_guard [.call] false (Guard.State.mk true 1) rfl

/-- C3: the critic's work finder scans at most the 10 oldest `analyzing`
decks in ascending processing-timestamp order and, within each deck, the
pages in ascending page-number order; it returns the first scanned page
with no `problem`-type insight for its page number, and returns nothing
exactly when every scanned page already has one. -/
theorem findPageToCritique_spec (s : Firestore) :
    findPageToCritique s
      = (critiqueScanOrder s).find?
          (fun q => !(hasProblemInsight s q.1 q.2.pageNumber))
    ∧ (findPageToCritique s = none ↔
        ∀ q ∈ critiqueScanOrder s, hasProblemInsight s q.1 q.2.pageNumber = true) := by
  have h := findSome?_eq_find?_flatMap (analyzingDecksQuery s) (fun d => d.1)
      (fun d => deckPagesSorted s d.1)
      (fun id p => !(hasProblemInsight s id p.pageNumber))
  constructor
  · exact h
  · rw [show findPageToCritique s
        = (critiqueScanOrder s).find?
            (fun q => !(hasProblemInsight s q.1 q.2.pageNumber)) from h,
      List.find?_eq_none]
    simp

/-- C4: the critic's completion check counts all insight documents under
the deck, of any type, and updates the deck status to `complete` exactly
when the count reaches `pageCount * 1`; below the threshold it leaves the
store untouched. -/
theorem checkIfDeckComplete_spec (s : Firestore) (deckId : String) (pageCount : Nat) :
    (pageCount * 1 ≤ (s.insights.filter (fun q => q.1 == deckId)).length →
      checkIfDeckComplete s deckId pageCount
        = updateDeck s deckId (fun d => { d with status := .complete }))
    ∧ ((s.insights.filter (fun q => q.1 == deckId)).length < pageCount * 1 →
      checkIfDeckComplete s deckId pageCount = s) := by
  constructor
  · intro h
    simp only [checkIfDeckComplete]
    rw [if_pos h]
  · intro h
    simp only [checkIfDeckComplete]
    rw [if_neg (by omega)]

/-- C4 witness: a deck with `pageCount = 3` and exactly three
`problem`-type insights is marked `complete` by the check. -/
theorem checkIfDeckComplete_spec_witness :
    ((checkIfDeckComplete storeThreeInsights "d1" 3).decks.find?
        (fun d => d.1 == "d1")).map (fun d => d.2.status)
      = some DeckStatus.complete := by
  have h := (checkIfDeckComplete_spec storeThreeInsights "d1" 3).1 (by decide)
  rw [h]
  rfl

/-- C5: for a full text of length `L` and reported page count `N ≥ 1`, the
extractor's page splitter produces exactly `N` page texts, page `i`
(1-based) being the trimmed character slice from `(i-1) * ceil(L/N)` to
`min(i * ceil(L/N), L)`, with an empty trimmed slice replaced by the
placeholder `"[Page i - No text extracted]"`. -/
theorem extractPDFText_spec (fullText : String) (N : Nat) (h : 1 ≤ N) :
    (extractPDFText fullText N).length = N
    ∧ ∀ i : Nat, 1 ≤ i → i ≤ N →
        (extractPDFText fullText N)[i - 1]? = some (
          let len := fullText.data.length
          let chunk := (len + N - 1) / N
          let slice := trimText
            (jsSubstring fullText.data ((i - 1) * chunk) (min (i * chunk) len))
          if slice.isEmpty then "[Page " ++ toString i ++ " - No text extracted]"
          else ⟨slice⟩) := by
  constructor
  · simp [extractPDFText]
  · intro i h1 h2
    have hlt : i - 1 < N := by omega
    have hi : (i - 1) + 1 = i := by omega
    simp only [extractPDFText, List.getElem?_map, List.getElem?_range, hlt,
      if_pos, Option.map_some]
    simp [pageSlice, hi]

/-- C5 witness: the splitter applied to the two-page scenario text. -/
theorem extractPDFText_spec_witness :
    (extractPDFText "PageOneTextPageTwoText" 2).length = 2
    ∧ (extractPDFText "PageOneTextPageTwoText" 2)[0]? = some "PageOneText" := by
  refine ⟨(extractPDFText_spec "PageOneTextPageTwoText" 2 (by decide)).1, ?_⟩
  have h := (extractPDFText_spec "PageOneTextPageTwoText" 2 (by decide)).2
    1 (by decide) (by decide)
  exact h.trans (by decide)

/-- C1: evaluation of the extractor at a failing input.  One uploaded deck;
the blob download throws "boom" after the deck was claimed (status already
advanced to `extracting`, a deck context established).  The run ends failed,
yet the deck is left in `extracting` with no `errorMessage`: the catch block
awaits `Logger.endSession` — which clears the logger's deck context — before
reading `Logger.getDeckContext()`, so its guarded `status = error` write
never executes, contradicting the block's own stated purpose. -/
theorem extract_failure_strands_deck :
    (((extractPDFPages envDownloadFails storeOneDeck LoggerState.init 5).1.decks.find?
        (fun d => d.1 == "d1")).map (fun d => (d.2.status, d.2.errorMessage)))
      = some (DeckStatus.extracting, none)
    ∧ (extractPDFPages envDownloadFails storeOneDeck LoggerState.init 5).2.2
      = ExtractOutcome.failed "boom"
    ∧ (extractPDFPages envDownloadFails storeOneDeck LoggerState.init 5).2.1.deckContext
      = ⟨none, none⟩ :=
  ⟨rfl, rfl, rfl⟩

/-- C6 counterexample: the spec's two-page scenario text
`"PageOneText" + "PageTwoText"` has 22 characters, not 24, and page 1 as
produced by the splitter is the 11-character slice `"PageOneText"`, not the
trimmed first 12 characters of the full text. -/
theorem extract_two_page_claim_refuted :
    ("PageOneTextPageTwoText" : String).data.length = 22
    ∧ (extractPDFText "PageOneTextPageTwoText" 2)[0]? = some "PageOneText"
    ∧ (extractPDFText "PageOneTextPageTwoText" 2)[0]?
        ≠ some ⟨trimText (jsSubstring ("PageOneTextPageTwoText" : String).data 0 12)⟩ := by
  refine ⟨rfl, rfl, ?_⟩
  decide

/-- C6 (amended): for the deck whose PDF parses to the 22-character full
text `"PageOneText" + "PageTwoText"` with reported page count 2, one
extractor run creates exactly two page documents — page 1 the first 11
characters trimmed, page 2 the remaining 11 trimmed — each with
`wordCount` counting whitespace-delimited non-empty tokens (so
`"alpha  beta   "` counts 2), and advances the deck to `analyzing` with
`pageCount = 2`. -/
theorem extract_two_page_scenario :
    (extractPDFPages envTwoPagePDF storeOneDeck LoggerState.init 7).1.pages.map
        (fun p => (p.1, p.2.pageNumber, p.2.text, p.2.wordCount))
      = [("d1", 1, "PageOneText", 1), ("d1", 2, "PageTwoText", 1)]
    ∧ (((extractPDFPages envTwoPagePDF storeOneDeck LoggerState.init 7).1.decks.find?
        (fun d => d.1 == "d1")).map (fun d => (d.2.status, d.2.pageCount)))
      = some (DeckStatus.analyzing, 2)
    ∧ countWords "alpha  beta   ".data = 2 :=
  ⟨rfl, rfl, rfl⟩

/-- C7: `Logger.error("x", new Error("y"))` during an active session
appends `"x: y"` to the session's error list and forces the session status
to failed; a later `endSession` without an explicit status persists the
session as failed, while an `endSession` with an explicit status overrides
the forced failure with that status. -/
theorem logger_error_forces_failed (st : LoggerState) (s : SessionRec)
    (h : st.session = some s) (now : Nat) :
    ((logError st "x" (.errObject "y")).session.map (fun r => r.errors))
        = some (s.errors ++ ["x: y"])
    ∧ ((logError st "x" (.errObject "y")).session.map (fun r => r.status))
        = some .failed
    ∧ ((endSession (logError st "x" (.errObject "y")) none now true).persisted.map
        (fun r => r.status)) = some .failed
    ∧ ((endSession (logError st "x" (.errObject "y"))
          (some ⟨some .completed⟩) now true).persisted.map
        (fun r => r.status)) = some .completed := by
  refine ⟨?_, ?_, ?_, ?_⟩ <;>
    simp [logError, h, endSession, normalizeError]

/-- C7 witness: the error-then-end flow applied right after a session
start. -/
theorem logger_error_forces_failed_witness :
    ((logError (startSession LoggerState.init "a" none 0) "x" (.errObject "y")).session.map
        (fun r => r.errors)) = some ["x: y"]
    ∧ ((endSession (logError (startSession LoggerState.init "a" none 0) "x"
          (.errObject "y")) none 1 true).persisted.map (fun r => r.status))
      = some .failed :=
  ⟨(logger_error_forces_failed (startSession LoggerState.init "a" none 0)
      ⟨"a", none, .completed, 0, none, [], []⟩ rfl 1).1,
   (logger_error_forces_failed (startSession LoggerState.init "a" none 0)
      ⟨"a", none, .completed, 0, none, [], []⟩ rfl 1).2.2.1⟩

/-- C8 counterexample: `endSession` with no active session returns early
without clearing: starting from a logger with no session but a non-empty
buffer and deck context (reachable, since `Logger.add` and
`Logger.setDeckContext` do not check for an active session), the state
after `endSession` still has a non-empty log buffer and deck context — so
`endSession` does not always leave an empty buffer and empty context. -/
theorem endSession_no_clear_counterexample :
    ((endSession (addLog (setDeckContext LoggerState.init "d1" none) 0 "m")
        none 1 true).state.logs ≠ [])
    ∧ ((endSession (addLog (setDeckContext LoggerState.init "d1" none) 0 "m")
        none 1 true).state.deckContext ≠ ⟨none, none⟩) := by
  constructor <;> decide

/-- C8 (amended): `endSession` never throws and always leaves no active
session; with no active session it makes no persistence attempt and leaves
the logger state unchanged (in particular it does not clear the buffer or
deck context on that path); with an active session it makes exactly one
append attempt, swallows an append failure, and clears the session, log
buffer and deck context regardless of whether the append succeeded. -/
theorem endSession_spec (st : LoggerState) (params : Option EndParams)
    (now : Nat) (writeOk : Bool) :
    (endSession st params now writeOk).state.session = none
    ∧ (st.session = none → endSession st params now writeOk = ⟨st, none, none⟩)
    ∧ (st.session.isSome = true →
        (endSession st params now writeOk).state = ⟨none, [], ⟨none, none⟩⟩
        ∧ (endSession st params now writeOk).attempted.isSome = true
        ∧ (endSession st params now writeOk).state
            = (endSession st params now (!writeOk)).state
        ∧ (endSession st params now writeOk).persisted
            = (if writeOk then (endSession st params now writeOk).attempted
               else none)) := by
  cases h : st.session with
  | none => simp [endSession, h]
  | some s => cases writeOk <;> simp [endSession, h]

/-- C8 witness: ending an active session with a failing append still clears
all logger state. -/
theorem endSession_spec_witness :
    (endSession (startSession LoggerState.init "extract_pdf" none 0)
        none 1 false).state = ⟨none, [], ⟨none, none⟩⟩ :=
  ((endSession_spec (startSession LoggerState.init "extract_pdf" none 0)
      none 1 false).2.2 rfl).1

end DeckReviewer
